import Mathlib

/-!
# Editor selection accenting, UI element cache checks and reflection test fixtures

A shallow embedding of

* `EditorSelectionAccentSystemComponent.cpp` (selection accent refresh),
* `UiElementComponent.h` (inline cached-pointer accessors),
* `LmbrCentralReflectionTest.h` (reflection test fixtures),

followed by theorems about the embedded code.
-/

namespace AzToolsFramework

/-- An `AZ::EntityId`, an opaque identifier compared by value. -/
abbrev EntityId := Nat

/-- The accent values `SetSandboxObjectAccent` is called with in
`EditorSelectionAccentSystemComponent.cpp`. -/
inductive ComponentEntityAccentType where
  | None
  | Hover
  | Selected
  | ParentSelected
  deriving DecidableEq, Repr

/-- A function placed on the tick queue by `AZ::TickBus::QueueFunction`. The only function this
component queues is the lambda `accentRefreshCallback` of `QueueAccentRefresh`. -/
inductive QueuedFunction where
  | accentRefreshCallback
  deriving DecidableEq, Repr

/-- The component together with the parts of the editor it talks to over buses.

* `m_isAccentRefreshQueued`, `m_currentlyAccentedEntities`: the component's data members
  (the set is kept as a duplicate-free list);
* `selectedEntities`, `highlightedEntities`: the answers of
  `ToolsApplicationRequests::GetSelectedEntities` / `GetHighlightedEntities`;
* `descendants`: the answer of `TransformInterface::GetAllDescendants` per entity;
* `accent`: the accent last set on each entity through
  `ComponentEntityEditorRequests::SetSandboxObjectAccent`;
* `tickQueue`: the functions queued on the tick bus, oldest first;
* `failedAsserts`: messages of the `AZ_Assert`s whose expression was false. -/
structure EditorSelectionAccentSystemComponent where
  m_isAccentRefreshQueued : Bool
  m_currentlyAccentedEntities : List EntityId
  selectedEntities : List EntityId
  highlightedEntities : List EntityId
  descendants : EntityId → List EntityId
  accent : EntityId → ComponentEntityAccentType
  tickQueue : List QueuedFunction
  failedAsserts : List String

namespace EditorSelectionAccentSystemComponent

/-- Modelled from the spec: the macro `AZ_Assert(expression, message)` is defined outside the
excerpt. It checks `expression`, reports `message` when it is false, and execution continues. -/
def AZ_Assert (expression : Bool) (message : String)
    (c : EditorSelectionAccentSystemComponent) : EditorSelectionAccentSystemComponent :=
  if expression then c else { c with failedAsserts := c.failedAsserts ++ [message] }

/-- The bus event `ComponentEntityEditorRequestBus::Event(entity, SetSandboxObjectAccent, a)`. -/
def SetSandboxObjectAccent (entity : EntityId) (a : ComponentEntityAccentType)
    (c : EditorSelectionAccentSystemComponent) : EditorSelectionAccentSystemComponent :=
  { c with accent := fun e => if e = entity then a else c.accent e }

/-- The call `m_currentlyAccentedEntities.insert(entity)`. -/
def insertAccented (entity : EntityId)
    (c : EditorSelectionAccentSystemComponent) : EditorSelectionAccentSystemComponent :=
  { c with m_currentlyAccentedEntities := c.m_currentlyAccentedEntities.insert entity }

/-- The source function `InvalidateAccents`: every currently accented entity gets accent `None`. -/
def InvalidateAccents (c : EditorSelectionAccentSystemComponent) :
    EditorSelectionAccentSystemComponent :=
  c.m_currentlyAccentedEntities.foldl
    (fun st accentedEntity => SetSandboxObjectAccent accentedEntity .None st) c

/-- The local `selectedEntitiesSet`, filled by `insert(begin, end)`. -/
def selectedEntitiesSet (selectedEntities : List EntityId) : List EntityId :=
  selectedEntities.foldl (fun s e => s.insert e) []

/-- The inner loop of `RecalculateAndApplyAccents` over the descendants of one selected
entity. -/
def accentDescendants (selectedSet : List EntityId) (descendants : List EntityId)
    (c : EditorSelectionAccentSystemComponent) : EditorSelectionAccentSystemComponent :=
  descendants.foldl
    (fun st descendant =>
      if selectedSet.contains descendant = false then
        insertAccented descendant (SetSandboxObjectAccent descendant .ParentSelected st)
      else st) c

/-- The first loop of `RecalculateAndApplyAccents`, over the selected entities. -/
def accentSelected (selectedSet : List EntityId) (selectedEntities : List EntityId)
    (c : EditorSelectionAccentSystemComponent) : EditorSelectionAccentSystemComponent :=
  selectedEntities.foldl
    (fun st selectedEntity =>
      let st1 := insertAccented selectedEntity (SetSandboxObjectAccent selectedEntity .Selected st)
      accentDescendants selectedSet (st1.descendants selectedEntity) st1) c

/-- The second loop of `RecalculateAndApplyAccents`, over the highlighted entities. -/
def accentHighlighted (highlightedEntities : List EntityId)
    (c : EditorSelectionAccentSystemComponent) : EditorSelectionAccentSystemComponent :=
  highlightedEntities.foldl
    (fun st highlightedEntity =>
      insertAccented highlightedEntity (SetSandboxObjectAccent highlightedEntity .Hover st)) c

/-- The source function `RecalculateAndApplyAccents`. -/
def RecalculateAndApplyAccents (c : EditorSelectionAccentSystemComponent) :
    EditorSelectionAccentSystemComponent :=
  let selectedEntities := c.selectedEntities
  let selectedSet := selectedEntitiesSet selectedEntities
  let c1 := accentSelected selectedSet selectedEntities c
  let highlightedEntities := c1.highlightedEntities
  accentHighlighted highlightedEntities c1

/-- The source function `ForceSelectionAccentRefresh`. -/
def ForceSelectionAccentRefresh (c : EditorSelectionAccentSystemComponent) :
    EditorSelectionAccentSystemComponent :=
  RecalculateAndApplyAccents (InvalidateAccents c)

/-- The body of the lambda `accentRefreshCallback`. -/
def accentRefreshCallback (c : EditorSelectionAccentSystemComponent) :
    EditorSelectionAccentSystemComponent :=
  { RecalculateAndApplyAccents (InvalidateAccents c) with m_isAccentRefreshQueued := false }

/-- The source function `QueueAccentRefresh`. -/
def QueueAccentRefresh (c : EditorSelectionAccentSystemComponent) :
    EditorSelectionAccentSystemComponent :=
  let c1 := AZ_Assert (!c.m_isAccentRefreshQueued)
    "Queueing another accent refresh when one is already queued!" c
  let c2 := { c1 with m_isAccentRefreshQueued := true }
  { c2 with tickQueue := c2.tickQueue ++ [QueuedFunction.accentRefreshCallback] }

/-- The source function `AfterEntityHighlightingChanged`. -/
def AfterEntityHighlightingChanged (c : EditorSelectionAccentSystemComponent) :
    EditorSelectionAccentSystemComponent :=
  if !c.m_isAccentRefreshQueued then QueueAccentRefresh c else c

/-- The source function `AfterEntitySelectionChanged`; its two list arguments are unnamed and unused. -/
def AfterEntitySelectionChanged (c : EditorSelectionAccentSystemComponent)
    (_newlySelected _newlyDeselected : List EntityId) : EditorSelectionAccentSystemComponent :=
  if !c.m_isAccentRefreshQueued then QueueAccentRefresh c else c

/-- Running one queued function. -/
def runQueued (c : EditorSelectionAccentSystemComponent) :
    QueuedFunction → EditorSelectionAccentSystemComponent
  | .accentRefreshCallback => accentRefreshCallback c

/-- A tick: the queue is emptied and every function that was queued runs, oldest first. -/
def tick (c : EditorSelectionAccentSystemComponent) : EditorSelectionAccentSystemComponent :=
  c.tickQueue.foldl runQueued { c with tickQueue := [] }

/-- The events the component reacts to. -/
inductive Event where
  | AfterEntityHighlightingChanged
  | AfterEntitySelectionChanged (newlySelected newlyDeselected : List EntityId)
  | ForceSelectionAccentRefresh
  | tick
  deriving DecidableEq, Repr

/-- The component's reaction to one event. -/
def step (c : EditorSelectionAccentSystemComponent) : Event → EditorSelectionAccentSystemComponent
  | .AfterEntityHighlightingChanged => AfterEntityHighlightingChanged c
  | .AfterEntitySelectionChanged s d => AfterEntitySelectionChanged c s d
  | .ForceSelectionAccentRefresh => ForceSelectionAccentRefresh c
  | .tick => tick c

/-- The component's reaction to a sequence of events, first event first. -/
def run (c : EditorSelectionAccentSystemComponent) (events : List Event) :
    EditorSelectionAccentSystemComponent :=
  events.foldl step c

/-- The number of accent-refresh callbacks pending on the tick queue. -/
def pendingAccentRefreshes (c : EditorSelectionAccentSystemComponent) : Nat :=
  c.tickQueue.count QueuedFunction.accentRefreshCallback

/-- A selection or hover notification. -/
def Event.isNotification : Event → Bool
  | .AfterEntityHighlightingChanged => true
  | .AfterEntitySelectionChanged _ _ => true
  | _ => false

end EditorSelectionAccentSystemComponent

end AzToolsFramework

/-! ## `UiElementComponent.h`: the inline accessors for the cached pointers -/

/-- A raw C++ pointer, as an address; `nullptr` is address `0`. -/
abbrev Pointer := Nat

/-- The null pointer. -/
def nullptr : Pointer := 0

/-- The value a call returns together with the messages of the `AZ_Assert`s that failed while
it ran. -/
structure Checked (α : Type) where
  value : α
  failedAsserts : List String
  deriving DecidableEq, Repr

/-- Modelled from the spec: the macro `AZ_Assert(expression, message)` is defined outside the
excerpt. It checks `expression`, reports `message` when it is false, and execution continues.
The result is the list of messages reported. -/
def AZ_Assert (expression : Bool) (message : String) : List String :=
  if expression then [] else [message]

/-- The conversion of an `int` to `size_t` (64 bit) that C++ applies when the two are
compared or when the `int` indexes a vector. -/
def toSizeT (index : Int) : Nat :=
  (index % (2 ^ 64 : Int)).toNat

/-- The data members of `UiElementComponent`, with their default member initialisers.
`m_parentId = none` is the default-constructed `AZ::EntityId`. -/
structure UiElementComponent where
  m_elementId : Nat := 0
  m_children : List AzToolsFramework.EntityId := []
  m_parent : Pointer := nullptr
  m_parentId : Option AzToolsFramework.EntityId := none
  m_canvas : Pointer := nullptr
  m_parentElementComponent : Pointer := nullptr
  m_transformComponent : Pointer := nullptr
  m_childElementComponents : List Pointer := []
  m_isEnabled : Bool := true
  m_isRenderEnabled : Bool := true
  m_isVisibleInEditor : Bool := true
  m_isSelectableInEditor : Bool := true
  m_isSelectedInEditor : Bool := false
  m_isExpandedInEditor : Bool := true
  deriving DecidableEq, Repr

namespace UiElementComponent

/-- A newly constructed component: every member has its default member initialiser. -/
def constructed : UiElementComponent := {}

/-- The source function `GetTransform2dComponent`. -/
def GetTransform2dComponent (c : UiElementComponent) : Checked Pointer :=
  { value := c.m_transformComponent
    failedAsserts := AZ_Assert (c.m_transformComponent != nullptr)
      "UiElementComponent: m_transformComponent used when not initialized" }

/-- The source function `GetParentElementComponent`. -/
def GetParentElementComponent (c : UiElementComponent) : Checked Pointer :=
  { value := c.m_parentElementComponent
    failedAsserts := AZ_Assert (c.m_parentElementComponent != nullptr || !(c.m_parent != nullptr))
      "UiElementComponent: m_parentElementComponent used when not initialized" }

/-- The message of the first assertion of `GetChildElementComponent`. -/
def outOfBoundsMessage : String :=
  "UiElementComponent: index to m_childElementComponents out of bounds"

/-- The message of the second assertion of `GetChildElementComponent`. -/
def childNotInitializedMessage : String :=
  "UiElementComponent: m_childElementComponents used when not initialized"

/-- The source function `GetChildElementComponent`. The value is `none` when the read
`m_childElementComponents[index]` is out of the vector's bounds (the read is then undefined,
and so is the expression of the second assertion). -/
def GetChildElementComponent (c : UiElementComponent) (index : Int) : Checked (Option Pointer) :=
  let a1 := AZ_Assert (decide (index ≥ 0) && decide (toSizeT index < c.m_childElementComponents.length))
    outOfBoundsMessage
  match c.m_childElementComponents[toSizeT index]? with
  | some p =>
    { value := some p
      failedAsserts := a1 ++ AZ_Assert (p != nullptr) childNotInitializedMessage }
  | none => { value := none, failedAsserts := a1 }

/-- The source function `GetCanvasComponent`. -/
def GetCanvasComponent (c : UiElementComponent) : Checked Pointer :=
  { value := c.m_canvas
    failedAsserts := AZ_Assert (c.m_canvas != nullptr)
      "UiElementComponent: m_canvas used when not initialized" }

/-- The message of the assertion of `AreChildPointersValid`. -/
def differentSizeMessage : String :=
  "Cached child pointers exist but are a different size to m_children"

/-- The source function `AreChildPointersValid`. -/
def AreChildPointersValid (c : UiElementComponent) : Checked Bool :=
  if c.m_childElementComponents.length = c.m_children.length then
    { value := true, failedAsserts := [] }
  else
    { value := false
      failedAsserts := AZ_Assert c.m_childElementComponents.isEmpty differentSizeMessage }

/-- The source function `IsFullyInitialized`; `&&` evaluates its right operand only when the left one is true. -/
def IsFullyInitialized (c : UiElementComponent) : Checked Bool :=
  if c.m_canvas != nullptr then
    if c.m_transformComponent != nullptr then AreChildPointersValid c
    else { value := false, failedAsserts := [] }
  else { value := false, failedAsserts := [] }

end UiElementComponent

/-! ## `LmbrCentralReflectionTest.h`: the reflection test fixtures -/

/-- The value `SetUpTestCase` gives to `Descriptor::m_recordingMode`. -/
inductive RecordingMode where
  | RECORD_FULL
  deriving DecidableEq, Repr

/-- The fields of `AZ::ComponentApplication::Descriptor` that `SetUpTestCase` sets. -/
structure Descriptor where
  m_allocationRecords : Bool
  m_useExistingAllocator : Bool
  m_recordingMode : RecordingMode
  deriving DecidableEq, Repr

/-- The field of `AZ::ComponentApplication::StartupParameters` that `SetUpTestCase` sets. -/
structure StartupParameters (Module : Type) where
  m_createStaticModulesCallback : List Module → List Module

/-- The field of `AZ::ObjectStream::FilterDescriptor` that `SetUp` sets. -/
structure FilterDescriptor (Asset : Type) where
  m_assetCB : Asset → Bool

/-- The operations of the application class `ApplicationT` (and of the serialization
utilities) that the fixtures call. Their code is outside the excerpt, so they are parameters.

* `construct`: the object made by `new InternalApplication`;
* `isFrameworkApplication`: whether `azrtti_cast<AzFramework::Application*>` succeeds;
* `Create`: starts the application and returns it with the system entity;
* `DestroyEditContext`: the call `GetSerializeContext()->DestroyEditContext()`;
* `LoadObjectFromBuffer`: `AZ::Utils::LoadObjectFromBuffer<ObjectT>`, `none` for a null
  result. -/
structure ApplicationT (App Module Context Asset Object : Type) where
  construct : App
  isFrameworkApplication : App → Bool
  CalculateAppRoot : App → App
  Create : App → Descriptor → StartupParameters Module → App × Pointer
  GetSerializeContext : App → Context
  DestroyEditContext : App → App
  Destroy : App → App
  LoadObjectFromBuffer : List Nat → Nat → Context → FilterDescriptor Asset → Option Object

/-- A call the fixtures make on the application or the serialization utilities. -/
inductive FixtureCall where
  | Create
  | Destroy
  | LoadObjectFromBuffer (buffer : List Nat) (length : Nat)
  deriving DecidableEq, Repr

/-- The static state of `ModuleReflectionTest`: its two static members, whether the system
allocator instance exists, and the calls made so far. -/
structure ModuleReflectionTest (App : Type) where
  systemAllocatorCreated : Bool
  s_application : Option App
  s_systemEntity : Pointer
  calls : List FixtureCall

/-- The members of one `LoadReflectedObjectTest` test object. -/
structure LoadReflectedObjectTest (Object : Type) where
  m_object : Option Object

/-- The C function `strlen` on the characters stored from a pointer on: the number of
characters before the first NUL. -/
def strlen (buffer : List Nat) : Nat :=
  (buffer.takeWhile (fun ch => ch != 0)).length

namespace ModuleReflectionTest

/-- The static state before any fixture code has run: `s_application` is default-constructed
(empty), `s_systemEntity` is initialised to `nullptr`. -/
def initial (App : Type) : ModuleReflectionTest App :=
  { systemAllocatorCreated := false, s_application := none, s_systemEntity := nullptr, calls := [] }

/-- The source function `SetUpTestCase`. `moduleT` is the module made by `new ModuleT`. -/
def SetUpTestCase {App Module Context Asset Object : Type}
    (api : ApplicationT App Module Context Asset Object) (moduleT : Module)
    (s : ModuleReflectionTest App) : ModuleReflectionTest App :=
  let s1 := { s with systemAllocatorCreated := true }
  let s2 := { s1 with s_application := some api.construct }
  let appDescriptor : Descriptor :=
    { m_allocationRecords := true, m_useExistingAllocator := true,
      m_recordingMode := RecordingMode.RECORD_FULL }
  let appStartup : StartupParameters Module :=
    { m_createStaticModulesCallback := fun modules => modules ++ [moduleT] }
  let app := api.construct
  let app1 := if api.isFrameworkApplication app then api.CalculateAppRoot app else app
  let created := api.Create app1 appDescriptor appStartup
  { s2 with
    s_application := some created.1
    s_systemEntity := created.2
    calls := s2.calls ++ [FixtureCall.Create] }

/-- The source function `TearDownTestCase`; `none` when `s_application` is empty (a null pointer is
dereferenced). -/
def TearDownTestCase {App Module Context Asset Object : Type}
    (api : ApplicationT App Module Context Asset Object)
    (s : ModuleReflectionTest App) : Option (ModuleReflectionTest App) :=
  match s.s_application with
  | none => none
  | some app =>
    let app1 := api.DestroyEditContext app
    let s1 := { s with s_application := some app1 }
    let s2 := { s1 with s_systemEntity := nullptr }
    let app2 := api.Destroy app1
    let s3 := { s2 with s_application := some app2, calls := s2.calls ++ [FixtureCall.Destroy] }
    let s4 := { s3 with s_application := none }
    some { s4 with systemAllocatorCreated := false }

end ModuleReflectionTest

namespace LoadReflectedObjectTest

/-- A test object before `SetUp`: `m_object` is default-constructed (null). -/
def constructed (Object : Type) : LoadReflectedObjectTest Object :=
  { m_object := none }

/-- The asset filter `SetUp` passes to the load: the lambda returns `false`. -/
def filter (Asset : Type) : FilterDescriptor Asset :=
  { m_assetCB := fun _ => false }

/-- The source function `SetUp`. `sourceDataBuffer` is what the pure virtual `GetSourceDataBuffer` returns: `none`
for a null pointer, otherwise the characters stored from the pointer on. The result is `none`
when a buffer is given while `s_application` is empty (a null pointer is dereferenced). -/
def SetUp {App Module Context Asset Object : Type}
    (api : ApplicationT App Module Context Asset Object) (sourceDataBuffer : Option (List Nat))
    (s : ModuleReflectionTest App) (t : LoadReflectedObjectTest Object) :
    Option (ModuleReflectionTest App × LoadReflectedObjectTest Object) :=
  match sourceDataBuffer with
  | none => some (s, t)
  | some buffer =>
    match s.s_application with
    | none => none
    | some app =>
      let loaded := api.LoadObjectFromBuffer buffer (strlen buffer + 1)
        (api.GetSerializeContext app) (filter Asset)
      some ({ s with calls := s.calls ++ [FixtureCall.LoadObjectFromBuffer buffer (strlen buffer + 1)] },
        { t with m_object := loaded })

/-- The source function `TearDown`. -/
def TearDown {Object : Type} (t : LoadReflectedObjectTest Object) :
    LoadReflectedObjectTest Object :=
  { t with m_object := none }

/-- One test of the fixture: a fresh test object, `SetUp`, `TearDown`. The result is the static
state afterwards. -/
def runTest {App Module Context Asset Object : Type}
    (api : ApplicationT App Module Context Asset Object) (sourceDataBuffer : Option (List Nat))
    (s : ModuleReflectionTest App) : Option (ModuleReflectionTest App) :=
  match SetUp api sourceDataBuffer s (constructed Object) with
  | none => none
  | some (s1, t1) =>
    let _t2 := TearDown t1
    some s1

/-- All tests of the fixture, one after the other; each is given by its source data buffer. -/
def runTests {App Module Context Asset Object : Type}
    (api : ApplicationT App Module Context Asset Object) :
    List (Option (List Nat)) → ModuleReflectionTest App → Option (ModuleReflectionTest App)
  | [], s => some s
  | b :: bs, s =>
    match runTest api b s with
    | none => none
    | some s1 => runTests api bs s1

/-- A whole run of the fixture: `SetUpTestCase`, the tests, `TearDownTestCase`. -/
def runSuite {App Module Context Asset Object : Type}
    (api : ApplicationT App Module Context Asset Object) (moduleT : Module)
    (tests : List (Option (List Nat))) (s : ModuleReflectionTest App) :
    Option (ModuleReflectionTest App) :=
  match runTests api tests (ModuleReflectionTest.SetUpTestCase api moduleT s) with
  | none => none
  | some s1 => ModuleReflectionTest.TearDownTestCase api s1

end LoadReflectedObjectTest

/-! ## Concrete editor states -/

namespace AzToolsFramework.EditorSelectionAccentSystemComponent

/-- An editor state with no refresh queued: entity 1 is selected and has the descendants 2
and 4, entity 3 is hovered, and entity 5 still carries an accent from an earlier refresh. -/
def sampleScene : EditorSelectionAccentSystemComponent :=
  { m_isAccentRefreshQueued := false
    m_currentlyAccentedEntities := [5, 2]
    selectedEntities := [1]
    highlightedEntities := [3]
    descendants := fun e => if e = 1 then [2, 4] else []
    accent := fun e => if e = 5 then ComponentEntityAccentType.Selected
      else ComponentEntityAccentType.None
    tickQueue := []
    failedAsserts := [] }

/-- An editor state in which nothing is selected, entity 1 is hovered and has the descendant 2,
and no entity has an accent yet. -/
def hoveredParentScene : EditorSelectionAccentSystemComponent :=
  { m_isAccentRefreshQueued := false
    m_currentlyAccentedEntities := []
    selectedEntities := []
    highlightedEntities := [1]
    descendants := fun e => if e = 1 then [2] else []
    accent := fun _ => ComponentEntityAccentType.None
    tickQueue := []
    failedAsserts := [] }

end AzToolsFramework.EditorSelectionAccentSystemComponent

/-! ## Bus connections of the accent component: `Activate` and `Deactivate` -/

namespace AzToolsFramework

/-- The accent component as a bus handler: whether its handler is connected to the
`ToolsApplicationEvents` bus, whether its handler is connected to the
`EditorSelectionAccentingRequestBus`, and the component itself. -/
structure ConnectedComponent where
  toolsApplicationEventsConnected : Bool
  accentingRequestBusConnected : Bool
  component : EditorSelectionAccentSystemComponent

namespace ConnectedComponent

/-- Modelled from the spec: the call `ToolsApplicationEvents::Bus::Handler::BusConnect()`; the
bus code is outside the excerpt. The handler is connected afterwards, also when it already
was. -/
def ToolsApplicationEvents_BusConnect (h : ConnectedComponent) : ConnectedComponent :=
  { h with toolsApplicationEventsConnected := true }

/-- Modelled from the spec: the call `EditorSelectionAccentingRequestBus::Handler::BusConnect()`;
the bus code is outside the excerpt. The handler is connected afterwards, also when it already
was. -/
def EditorSelectionAccentingRequestBus_BusConnect (h : ConnectedComponent) :
    ConnectedComponent :=
  { h with accentingRequestBusConnected := true }

/-- Modelled from the spec: the call
`EditorSelectionAccentingRequestBus::Handler::BusDisconnect()`; the bus code is outside the
excerpt. The handler is not connected afterwards. -/
def EditorSelectionAccentingRequestBus_BusDisconnect (h : ConnectedComponent) :
    ConnectedComponent :=
  { h with accentingRequestBusConnected := false }

/-- The source function `Activate`. -/
def Activate (h : ConnectedComponent) : ConnectedComponent :=
  EditorSelectionAccentingRequestBus_BusConnect (ToolsApplicationEvents_BusConnect h)

/-- The source function `Deactivate`: its first statement calls `BusConnect` on the
`ToolsApplicationEvents` handler, its second `BusDisconnect` on the request-bus handler. -/
def Deactivate (h : ConnectedComponent) : ConnectedComponent :=
  EditorSelectionAccentingRequestBus_BusDisconnect (ToolsApplicationEvents_BusConnect h)

/-- Modelled from the spec: a broadcast of `AfterEntitySelectionChanged` on the
`ToolsApplicationEvents` bus; it reaches the component exactly when its handler is connected. -/
def broadcastAfterEntitySelectionChanged (h : ConnectedComponent)
    (newlySelected newlyDeselected : List EntityId) : ConnectedComponent :=
  if h.toolsApplicationEventsConnected then
    { h with component :=
        h.component.AfterEntitySelectionChanged newlySelected newlyDeselected }
  else h

/-- Modelled from the spec: a broadcast of `AfterEntityHighlightingChanged` on the
`ToolsApplicationEvents` bus; it reaches the component exactly when its handler is connected. -/
def broadcastAfterEntityHighlightingChanged (h : ConnectedComponent) : ConnectedComponent :=
  if h.toolsApplicationEventsConnected then
    { h with component := h.component.AfterEntityHighlightingChanged }
  else h

/-- The component around `sampleScene` before `Activate`: connected to neither bus. -/
def inactiveSample : ConnectedComponent :=
  { toolsApplicationEventsConnected := false
    accentingRequestBusConnected := false
    component := EditorSelectionAccentSystemComponent.sampleScene }

end ConnectedComponent

end AzToolsFramework

/-! ## Concrete UI elements and a concrete application -/

/-- A UI element with three cached child pointers, the second of them null, and three
children. -/
def sampleElement : UiElementComponent :=
  { m_children := [11, 12, 13], m_childElementComponents := [7, 0, 9] }

/-- A toy application for running the fixtures: the application state counts the calls made on
it, the serialize context is the number 42, and loading returns the first `length` characters
of the buffer. -/
def sampleApplication : ApplicationT Nat String Nat Nat (List Nat) :=
  { construct := 0
    isFrameworkApplication := fun _ => true
    CalculateAppRoot := fun app => app + 1
    Create := fun app _ _ => (app + 1, 500)
    GetSerializeContext := fun _ => 42
    DestroyEditContext := fun app => app + 1
    Destroy := fun app => app + 1
    LoadObjectFromBuffer := fun buffer length _ _ => some (buffer.take length) }

/-! ## Auxiliary lemmas on the accent refresh -/

namespace AzToolsFramework.EditorSelectionAccentSystemComponent

theorem mem_selectedEntitiesSet_aux (l acc : List EntityId) (e : EntityId) :
    e ∈ l.foldl (fun s x => s.insert x) acc ↔ e ∈ acc ∨ e ∈ l := by
  induction l generalizing acc with
  | nil => simp
  | cons x xs ih =>
    simp only [List.foldl_cons, ih, List.mem_insert_iff, List.mem_cons]
    tauto

theorem mem_selectedEntitiesSet (l : List EntityId) (e : EntityId) :
    e ∈ selectedEntitiesSet l ↔ e ∈ l := by
  simp [selectedEntitiesSet, mem_selectedEntitiesSet_aux]

theorem InvalidateAccents_accent (c : EditorSelectionAccentSystemComponent) (e : EntityId) :
    (InvalidateAccents c).accent e =
      if e ∈ c.m_currentlyAccentedEntities then ComponentEntityAccentType.None else c.accent e := by
  unfold InvalidateAccents
  generalize c.m_currentlyAccentedEntities = l
  induction l generalizing c with
  | nil => simp
  | cons x xs ih =>
    rw [List.foldl_cons, ih]
    by_cases h1 : e ∈ xs <;> by_cases h2 : e = x <;> simp [h1, h2, SetSandboxObjectAccent]

theorem accentDescendants_accent (S ds : List EntityId)
    (c : EditorSelectionAccentSystemComponent) (e : EntityId) :
    (accentDescendants S ds c).accent e =
      if e ∈ ds ∧ e ∉ S then ComponentEntityAccentType.ParentSelected else c.accent e := by
  unfold accentDescendants
  induction ds generalizing c with
  | nil => simp
  | cons d ds ih =>
    rw [List.foldl_cons, ih]
    by_cases h1 : e ∈ ds <;> by_cases h2 : e = d <;> by_cases h3 : d ∈ S <;>
      simp [h1, h2, h3, SetSandboxObjectAccent, insertAccented]

theorem foldl_frame {α β γ : Type} (proj : β → γ) (f : β → α → β)
    (h : ∀ b a, proj (f b a) = proj b) (l : List α) (b : β) :
    proj (l.foldl f b) = proj b := by
  induction l generalizing b with
  | nil => rfl
  | cons x xs ih => rw [List.foldl_cons, ih, h]

theorem accentDescendants_descendants (S ds : List EntityId)
    (c : EditorSelectionAccentSystemComponent) :
    (accentDescendants S ds c).descendants = c.descendants := by
  unfold accentDescendants
  refine foldl_frame (fun st : EditorSelectionAccentSystemComponent => st.descendants) _ ?_ ds c
  intro b a
  by_cases h : a ∈ S <;> simp [h, insertAccented, SetSandboxObjectAccent]

theorem accentSelected_accent (S l : List EntityId)
    (c : EditorSelectionAccentSystemComponent) (e : EntityId) (hS : ∀ x ∈ l, x ∈ S) :
    (accentSelected S l c).accent e =
      if e ∈ l then ComponentEntityAccentType.Selected
      else if e ∉ S ∧ ∃ s ∈ l, e ∈ c.descendants s then ComponentEntityAccentType.ParentSelected
      else c.accent e := by
  unfold accentSelected
  induction l generalizing c with
  | nil => simp
  | cons x xs ih =>
    have hx : x ∈ S := hS x (List.mem_cons_self x xs)
    have hxs : ∀ y ∈ xs, y ∈ S := fun y hy => hS y (List.mem_cons_of_mem x hy)
    rw [List.foldl_cons, ih _ hxs]
    simp only [accentDescendants_descendants, accentDescendants_accent]
    simp only [insertAccented, SetSandboxObjectAccent]
    by_cases h1 : e ∈ xs
    · simp [h1]
    · by_cases h2 : e = x
      · subst h2
        simp [h1, hx]
      · by_cases h3 : e ∈ S
        · simp [h1, h2, h3]
        · by_cases h4 : e ∈ c.descendants x
          · by_cases h5 : ∃ s ∈ xs, e ∈ c.descendants s
            · simp [h1, h2, h3, h4, h5]
            · simp [h1, h2, h3, h4, h5]
          · by_cases h5 : ∃ s ∈ xs, e ∈ c.descendants s
            · simp [h1, h2, h3, h4, h5]
            · simp [h1, h2, h3, h4, h5]

theorem accentHighlighted_accent (l : List EntityId)
    (c : EditorSelectionAccentSystemComponent) (e : EntityId) :
    (accentHighlighted l c).accent e =
      if e ∈ l then ComponentEntityAccentType.Hover else c.accent e := by
  unfold accentHighlighted
  induction l generalizing c with
  | nil => simp
  | cons x xs ih =>
    rw [List.foldl_cons, ih]
    by_cases h1 : e ∈ xs <;> by_cases h2 : e = x <;>
      simp [h1, h2, SetSandboxObjectAccent, insertAccented]

theorem accentDescendants_frame (S ds : List EntityId)
    (c : EditorSelectionAccentSystemComponent) :
    (accentDescendants S ds c).m_isAccentRefreshQueued = c.m_isAccentRefreshQueued ∧
    (accentDescendants S ds c).selectedEntities = c.selectedEntities ∧
    (accentDescendants S ds c).highlightedEntities = c.highlightedEntities ∧
    (accentDescendants S ds c).tickQueue = c.tickQueue ∧
    (accentDescendants S ds c).failedAsserts = c.failedAsserts := by
  unfold accentDescendants
  refine ⟨?_, ?_, ?_, ?_, ?_⟩
  · refine foldl_frame
      (fun st : EditorSelectionAccentSystemComponent => st.m_isAccentRefreshQueued) _ ?_ ds c
    intro b a
    by_cases h : a ∈ S <;> simp [h, insertAccented, SetSandboxObjectAccent]
  · refine foldl_frame
      (fun st : EditorSelectionAccentSystemComponent => st.selectedEntities) _ ?_ ds c
    intro b a
    by_cases h : a ∈ S <;> simp [h, insertAccented, SetSandboxObjectAccent]
  · refine foldl_frame
      (fun st : EditorSelectionAccentSystemComponent => st.highlightedEntities) _ ?_ ds c
    intro b a
    by_cases h : a ∈ S <;> simp [h, insertAccented, SetSandboxObjectAccent]
  · refine foldl_frame
      (fun st : EditorSelectionAccentSystemComponent => st.tickQueue) _ ?_ ds c
    intro b a
    by_cases h : a ∈ S <;> simp [h, insertAccented, SetSandboxObjectAccent]
  · refine foldl_frame
      (fun st : EditorSelectionAccentSystemComponent => st.failedAsserts) _ ?_ ds c
    intro b a
    by_cases h : a ∈ S <;> simp [h, insertAccented, SetSandboxObjectAccent]

theorem accentSelected_frame (S l : List EntityId)
    (c : EditorSelectionAccentSystemComponent) :
    (accentSelected S l c).m_isAccentRefreshQueued = c.m_isAccentRefreshQueued ∧
    (accentSelected S l c).selectedEntities = c.selectedEntities ∧
    (accentSelected S l c).highlightedEntities = c.highlightedEntities ∧
    (accentSelected S l c).descendants = c.descendants ∧
    (accentSelected S l c).tickQueue = c.tickQueue ∧
    (accentSelected S l c).failedAsserts = c.failedAsserts := by
  unfold accentSelected
  refine ⟨?_, ?_, ?_, ?_, ?_, ?_⟩
  · refine foldl_frame
      (fun st : EditorSelectionAccentSystemComponent => st.m_isAccentRefreshQueued) _ ?_ l c
    intro b a
    simp [(accentDescendants_frame _ _ _).1, insertAccented, SetSandboxObjectAccent]
  · refine foldl_frame
      (fun st : EditorSelectionAccentSystemComponent => st.selectedEntities) _ ?_ l c
    intro b a
    simp [(accentDescendants_frame _ _ _).2.1, insertAccented, SetSandboxObjectAccent]
  · refine foldl_frame
      (fun st : EditorSelectionAccentSystemComponent => st.highlightedEntities) _ ?_ l c
    intro b a
    simp [(accentDescendants_frame _ _ _).2.2.1, insertAccented, SetSandboxObjectAccent]
  · refine foldl_frame
      (fun st : EditorSelectionAccentSystemComponent => st.descendants) _ ?_ l c
    intro b a
    simp [accentDescendants_descendants, insertAccented, SetSandboxObjectAccent]
  · refine foldl_frame
      (fun st : EditorSelectionAccentSystemComponent => st.tickQueue) _ ?_ l c
    intro b a
    simp [(accentDescendants_frame _ _ _).2.2.2.1, insertAccented, SetSandboxObjectAccent]
  · refine foldl_frame
      (fun st : EditorSelectionAccentSystemComponent => st.failedAsserts) _ ?_ l c
    intro b a
    simp [(accentDescendants_frame _ _ _).2.2.2.2, insertAccented, SetSandboxObjectAccent]

theorem accentHighlighted_frame (l : List EntityId)
    (c : EditorSelectionAccentSystemComponent) :
    (accentHighlighted l c).m_isAccentRefreshQueued = c.m_isAccentRefreshQueued ∧
    (accentHighlighted l c).selectedEntities = c.selectedEntities ∧
    (accentHighlighted l c).highlightedEntities = c.highlightedEntities ∧
    (accentHighlighted l c).descendants = c.descendants ∧
    (accentHighlighted l c).tickQueue = c.tickQueue ∧
    (accentHighlighted l c).failedAsserts = c.failedAsserts := by
  unfold accentHighlighted
  refine ⟨?_, ?_, ?_, ?_, ?_, ?_⟩
  · refine foldl_frame
      (fun st : EditorSelectionAccentSystemComponent => st.m_isAccentRefreshQueued) _ ?_ l c
    intro b a
    rfl
  · refine foldl_frame
      (fun st : EditorSelectionAccentSystemComponent => st.selectedEntities) _ ?_ l c
    intro b a
    rfl
  · refine foldl_frame
      (fun st : EditorSelectionAccentSystemComponent => st.highlightedEntities) _ ?_ l c
    intro b a
    rfl
  · refine foldl_frame
      (fun st : EditorSelectionAccentSystemComponent => st.descendants) _ ?_ l c
    intro b a
    rfl
  · refine foldl_frame
      (fun st : EditorSelectionAccentSystemComponent => st.tickQueue) _ ?_ l c
    intro b a
    rfl
  · refine foldl_frame
      (fun st : EditorSelectionAccentSystemComponent => st.failedAsserts) _ ?_ l c
    intro b a
    rfl

theorem InvalidateAccents_frame (c : EditorSelectionAccentSystemComponent) :
    (InvalidateAccents c).m_isAccentRefreshQueued = c.m_isAccentRefreshQueued ∧
    (InvalidateAccents c).selectedEntities = c.selectedEntities ∧
    (InvalidateAccents c).highlightedEntities = c.highlightedEntities ∧
    (InvalidateAccents c).descendants = c.descendants ∧
    (InvalidateAccents c).tickQueue = c.tickQueue ∧
    (InvalidateAccents c).failedAsserts = c.failedAsserts := by
  unfold InvalidateAccents
  refine ⟨?_, ?_, ?_, ?_, ?_, ?_⟩
  · refine foldl_frame
      (fun st : EditorSelectionAccentSystemComponent => st.m_isAccentRefreshQueued) _ ?_ _ c
    intro b a
    rfl
  · refine foldl_frame
      (fun st : EditorSelectionAccentSystemComponent => st.selectedEntities) _ ?_ _ c
    intro b a
    rfl
  · refine foldl_frame
      (fun st : EditorSelectionAccentSystemComponent => st.highlightedEntities) _ ?_ _ c
    intro b a
    rfl
  · refine foldl_frame
      (fun st : EditorSelectionAccentSystemComponent => st.descendants) _ ?_ _ c
    intro b a
    rfl
  · refine foldl_frame
      (fun st : EditorSelectionAccentSystemComponent => st.tickQueue) _ ?_ _ c
    intro b a
    rfl
  · refine foldl_frame
      (fun st : EditorSelectionAccentSystemComponent => st.failedAsserts) _ ?_ _ c
    intro b a
    rfl

theorem RecalculateAndApplyAccents_frame (c : EditorSelectionAccentSystemComponent) :
    (RecalculateAndApplyAccents c).m_isAccentRefreshQueued = c.m_isAccentRefreshQueued ∧
    (RecalculateAndApplyAccents c).selectedEntities = c.selectedEntities ∧
    (RecalculateAndApplyAccents c).highlightedEntities = c.highlightedEntities ∧
    (RecalculateAndApplyAccents c).descendants = c.descendants ∧
    (RecalculateAndApplyAccents c).tickQueue = c.tickQueue ∧
    (RecalculateAndApplyAccents c).failedAsserts = c.failedAsserts := by
  unfold RecalculateAndApplyAccents
  obtain ⟨h1, h2, h3, h4, h5, h6⟩ := accentSelected_frame
    (selectedEntitiesSet c.selectedEntities) c.selectedEntities c
  obtain ⟨k1, k2, k3, k4, k5, k6⟩ := accentHighlighted_frame
    (accentSelected (selectedEntitiesSet c.selectedEntities) c.selectedEntities c).highlightedEntities
    (accentSelected (selectedEntitiesSet c.selectedEntities) c.selectedEntities c)
  exact ⟨k1.trans h1, k2.trans h2, k3.trans h3, k4.trans h4, k5.trans h5, k6.trans h6⟩

theorem RecalculateAndApplyAccents_accent (c : EditorSelectionAccentSystemComponent)
    (e : EntityId) :
    (RecalculateAndApplyAccents c).accent e =
      if e ∈ c.highlightedEntities then ComponentEntityAccentType.Hover
      else if e ∈ c.selectedEntities then ComponentEntityAccentType.Selected
      else if ∃ s ∈ c.selectedEntities, e ∈ c.descendants s then
        ComponentEntityAccentType.ParentSelected
      else c.accent e := by
  unfold RecalculateAndApplyAccents
  simp only [accentHighlighted_accent, (accentSelected_frame _ _ _).2.2.1]
  rw [accentSelected_accent _ _ _ _ (fun x hx => (mem_selectedEntitiesSet _ _).2 hx)]
  simp only [mem_selectedEntitiesSet]
  by_cases h1 : e ∈ c.highlightedEntities
  · simp [h1]
  · by_cases h2 : e ∈ c.selectedEntities
    · simp [h1, h2]
    · simp [h1, h2]

theorem ForceSelectionAccentRefresh_frame (c : EditorSelectionAccentSystemComponent) :
    (ForceSelectionAccentRefresh c).m_isAccentRefreshQueued = c.m_isAccentRefreshQueued ∧
    (ForceSelectionAccentRefresh c).selectedEntities = c.selectedEntities ∧
    (ForceSelectionAccentRefresh c).highlightedEntities = c.highlightedEntities ∧
    (ForceSelectionAccentRefresh c).descendants = c.descendants ∧
    (ForceSelectionAccentRefresh c).tickQueue = c.tickQueue ∧
    (ForceSelectionAccentRefresh c).failedAsserts = c.failedAsserts := by
  unfold ForceSelectionAccentRefresh
  obtain ⟨h1, h2, h3, h4, h5, h6⟩ := InvalidateAccents_frame c
  obtain ⟨k1, k2, k3, k4, k5, k6⟩ := RecalculateAndApplyAccents_frame (InvalidateAccents c)
  exact ⟨k1.trans h1, k2.trans h2, k3.trans h3, k4.trans h4, k5.trans h5, k6.trans h6⟩

theorem ForceSelectionAccentRefresh_accent (c : EditorSelectionAccentSystemComponent)
    (e : EntityId) :
    (ForceSelectionAccentRefresh c).accent e =
      if e ∈ c.highlightedEntities then ComponentEntityAccentType.Hover
      else if e ∈ c.selectedEntities then ComponentEntityAccentType.Selected
      else if ∃ s ∈ c.selectedEntities, e ∈ c.descendants s then
        ComponentEntityAccentType.ParentSelected
      else if e ∈ c.m_currentlyAccentedEntities then ComponentEntityAccentType.None
      else c.accent e := by
  unfold ForceSelectionAccentRefresh
  obtain ⟨_, h2, h3, h4, _, _⟩ := InvalidateAccents_frame c
  rw [RecalculateAndApplyAccents_accent, h2, h3, h4, InvalidateAccents_accent]

theorem accentRefreshCallback_frame (c : EditorSelectionAccentSystemComponent) :
    (accentRefreshCallback c).m_isAccentRefreshQueued = false ∧
    (accentRefreshCallback c).tickQueue = c.tickQueue ∧
    (accentRefreshCallback c).failedAsserts = c.failedAsserts := by
  obtain ⟨_, _, _, _, h5, h6⟩ := ForceSelectionAccentRefresh_frame c
  exact ⟨rfl, h5, h6⟩

theorem notify_eq (c : EditorSelectionAccentSystemComponent) :
    AfterEntityHighlightingChanged c =
      if c.m_isAccentRefreshQueued = true then c
      else { c with
        m_isAccentRefreshQueued := true
        tickQueue := c.tickQueue ++ [QueuedFunction.accentRefreshCallback] } := by
  unfold AfterEntityHighlightingChanged QueueAccentRefresh AZ_Assert
  cases h : c.m_isAccentRefreshQueued <;> simp

theorem tick_failedAsserts (c : EditorSelectionAccentSystemComponent) :
    (tick c).failedAsserts = c.failedAsserts := by
  unfold tick
  have h := foldl_frame (fun st : EditorSelectionAccentSystemComponent => st.failedAsserts)
    runQueued (fun b a => by cases a; exact (accentRefreshCallback_frame b).2.2)
    c.tickQueue { c with tickQueue := [] }
  exact h

theorem step_failedAsserts (c : EditorSelectionAccentSystemComponent) (ev : Event) :
    (step c ev).failedAsserts = c.failedAsserts := by
  cases ev with
  | AfterEntityHighlightingChanged =>
    show (AfterEntityHighlightingChanged c).failedAsserts = _
    rw [notify_eq]
    split <;> rfl
  | AfterEntitySelectionChanged s d =>
    show (AfterEntityHighlightingChanged c).failedAsserts = _
    rw [notify_eq]
    split <;> rfl
  | ForceSelectionAccentRefresh => exact (ForceSelectionAccentRefresh_frame c).2.2.2.2.2
  | tick => exact tick_failedAsserts c

theorem run_failedAsserts (c : EditorSelectionAccentSystemComponent) (events : List Event) :
    (run c events).failedAsserts = c.failedAsserts := by
  unfold run
  exact foldl_frame (fun st : EditorSelectionAccentSystemComponent => st.failedAsserts)
    step step_failedAsserts events c

theorem step_queue_invariant (c : EditorSelectionAccentSystemComponent) (ev : Event)
    (h : c.tickQueue =
      if c.m_isAccentRefreshQueued = true then [QueuedFunction.accentRefreshCallback] else []) :
    (step c ev).tickQueue =
      if (step c ev).m_isAccentRefreshQueued = true then [QueuedFunction.accentRefreshCallback]
      else [] := by
  cases ev with
  | AfterEntityHighlightingChanged =>
    show (AfterEntityHighlightingChanged c).tickQueue =
      if (AfterEntityHighlightingChanged c).m_isAccentRefreshQueued = true then _ else _
    rw [notify_eq]
    cases hq : c.m_isAccentRefreshQueued <;> simp [hq] at h ⊢ <;> simp [h, hq]
  | AfterEntitySelectionChanged s d =>
    show (AfterEntityHighlightingChanged c).tickQueue =
      if (AfterEntityHighlightingChanged c).m_isAccentRefreshQueued = true then _ else _
    rw [notify_eq]
    cases hq : c.m_isAccentRefreshQueued <;> simp [hq] at h ⊢ <;> simp [h, hq]
  | ForceSelectionAccentRefresh =>
    obtain ⟨h1, _, _, _, h5, _⟩ := ForceSelectionAccentRefresh_frame c
    show (ForceSelectionAccentRefresh c).tickQueue =
      if (ForceSelectionAccentRefresh c).m_isAccentRefreshQueued = true then _ else _
    rw [h1, h5, h]
  | tick =>
    show (tick c).tickQueue = if (tick c).m_isAccentRefreshQueued = true then _ else _
    unfold tick
    cases hq : c.m_isAccentRefreshQueued
    · simp [hq] at h
      simp [h, hq]
    · simp [hq] at h
      simp only [h, List.foldl_cons, List.foldl_nil, runQueued]
      rw [(accentRefreshCallback_frame _).1, (accentRefreshCallback_frame _).2.1]
      simp

theorem run_queue_invariant (c : EditorSelectionAccentSystemComponent) (events : List Event)
    (h : c.tickQueue =
      if c.m_isAccentRefreshQueued = true then [QueuedFunction.accentRefreshCallback] else []) :
    (run c events).tickQueue =
      if (run c events).m_isAccentRefreshQueued = true then [QueuedFunction.accentRefreshCallback]
      else [] := by
  unfold run
  induction events generalizing c with
  | nil => exact h
  | cons ev evs ih =>
    rw [List.foldl_cons]
    exact ih (step c ev) (step_queue_invariant c ev h)

theorem step_notification_flag (c : EditorSelectionAccentSystemComponent) (ev : Event)
    (h : ev.isNotification = true) : (step c ev).m_isAccentRefreshQueued = true := by
  cases ev with
  | AfterEntityHighlightingChanged =>
    show (AfterEntityHighlightingChanged c).m_isAccentRefreshQueued = true
    rw [notify_eq]
    cases hq : c.m_isAccentRefreshQueued <;> simp [hq]
  | AfterEntitySelectionChanged s d =>
    show (AfterEntityHighlightingChanged c).m_isAccentRefreshQueued = true
    rw [notify_eq]
    cases hq : c.m_isAccentRefreshQueued <;> simp [hq]
  | ForceSelectionAccentRefresh => simp [Event.isNotification] at h
  | tick => simp [Event.isNotification] at h

theorem step_flag_stays (c : EditorSelectionAccentSystemComponent) (ev : Event)
    (hq : c.m_isAccentRefreshQueued = true) (h : ev ≠ Event.tick) :
    (step c ev).m_isAccentRefreshQueued = true := by
  cases ev with
  | AfterEntityHighlightingChanged => exact step_notification_flag c _ rfl
  | AfterEntitySelectionChanged s d => exact step_notification_flag c _ rfl
  | ForceSelectionAccentRefresh => exact (ForceSelectionAccentRefresh_frame c).1.trans hq
  | tick => exact absurd rfl h

theorem run_flag_stays (c : EditorSelectionAccentSystemComponent) (events : List Event)
    (hq : c.m_isAccentRefreshQueued = true) (h : ∀ ev ∈ events, ev ≠ Event.tick) :
    (run c events).m_isAccentRefreshQueued = true := by
  unfold run
  induction events generalizing c with
  | nil => exact hq
  | cons ev evs ih =>
    rw [List.foldl_cons]
    exact ih (step c ev) (step_flag_stays c ev hq (h ev (List.mem_cons_self ev evs)))
      (fun e he => h e (List.mem_cons_of_mem ev he))

theorem run_notifications_flag (c : EditorSelectionAccentSystemComponent)
    (notifications : List Event) (hne : notifications ≠ [])
    (h : ∀ ev ∈ notifications, ev.isNotification = true) :
    (run c notifications).m_isAccentRefreshQueued = true := by
  cases notifications with
  | nil => exact absurd rfl hne
  | cons ev evs =>
    have h1 := step_notification_flag c ev (h ev (List.mem_cons_self ev evs))
    have h2 : ∀ e ∈ evs, e ≠ Event.tick := by
      intro e he heq
      have := h e (List.mem_cons_of_mem ev he)
      rw [heq] at this
      simp [Event.isNotification] at this
    exact run_flag_stays (step c ev) evs h1 h2

theorem initial_queue_invariant (c : EditorSelectionAccentSystemComponent)
    (hflag : c.m_isAccentRefreshQueued = false) (hqueue : c.tickQueue = []) :
    c.tickQueue =
      if c.m_isAccentRefreshQueued = true then [QueuedFunction.accentRefreshCallback] else [] := by
  simp [hflag, hqueue]

theorem pending_of_invariant (c : EditorSelectionAccentSystemComponent)
    (h : c.tickQueue =
      if c.m_isAccentRefreshQueued = true then [QueuedFunction.accentRefreshCallback] else []) :
    pendingAccentRefreshes c = if c.m_isAccentRefreshQueued = true then 1 else 0 := by
  unfold pendingAccentRefreshes
  rw [h]
  cases c.m_isAccentRefreshQueued <;> simp

end AzToolsFramework.EditorSelectionAccentSystemComponent

/-! ## The accent refresh: coalescing and accent assignment -/

namespace AzToolsFramework.EditorSelectionAccentSystemComponent

/-- C1: starting from a component with no refresh queued and an empty tick queue, after every
finite sequence of events the number of accent-refresh callbacks pending on the tick queue is 1
when `m_isAccentRefreshQueued` is true and 0 when it is false. Hence after a tick any non-empty
sequence of selection/hover notifications leaves exactly one callback pending, and the next tick
runs the callback body exactly once. -/
theorem accent_refreshes_coalesced (c : EditorSelectionAccentSystemComponent)
    (hflag : c.m_isAccentRefreshQueued = false) (hqueue : c.tickQueue = [])
    (events : List Event) :
    pendingAccentRefreshes (run c events) =
        (if (run c events).m_isAccentRefreshQueued = true then 1 else 0) ∧
    ∀ notifications : List Event, notifications ≠ [] →
      (∀ ev ∈ notifications, ev.isNotification = true) →
      pendingAccentRefreshes (run (tick (run c events)) notifications) = 1 ∧
      tick (run (tick (run c events)) notifications) =
        accentRefreshCallback { run (tick (run c events)) notifications with tickQueue := [] } := by
  have hinv := run_queue_invariant c events (initial_queue_invariant c hflag hqueue)
  refine ⟨pending_of_invariant _ hinv, ?_⟩
  intro notifications hne hall
  have hinv1 := step_queue_invariant (run c events) Event.tick hinv
  have hinv2 := run_queue_invariant (tick (run c events)) notifications hinv1
  have hq := run_notifications_flag (tick (run c events)) notifications hne hall
  rw [hq] at hinv2
  simp only [if_true] at hinv2
  refine ⟨?_, ?_⟩
  · unfold pendingAccentRefreshes
    rw [hinv2]
    rfl
  · show List.foldl runQueued _ _ = _
    rw [hinv2]
    rfl

/-- Witness for C1 on `sampleScene`, with a hover notification, a selection notification and a
forced refresh as events. -/
theorem accent_refreshes_coalesced_witness :
    sampleScene.m_isAccentRefreshQueued = false ∧ sampleScene.tickQueue = [] ∧
    (pendingAccentRefreshes (run sampleScene
        [Event.AfterEntityHighlightingChanged, Event.AfterEntitySelectionChanged [1] [],
          Event.ForceSelectionAccentRefresh]) =
      (if (run sampleScene
        [Event.AfterEntityHighlightingChanged, Event.AfterEntitySelectionChanged [1] [],
          Event.ForceSelectionAccentRefresh]).m_isAccentRefreshQueued = true then 1 else 0)) ∧
    pendingAccentRefreshes (run (tick (run sampleScene
        [Event.AfterEntityHighlightingChanged, Event.AfterEntitySelectionChanged [1] [],
          Event.ForceSelectionAccentRefresh]))
      [Event.AfterEntitySelectionChanged [] [1], Event.AfterEntityHighlightingChanged]) = 1 :=
  ⟨rfl, rfl,
    (accent_refreshes_coalesced sampleScene rfl rfl
      [Event.AfterEntityHighlightingChanged, Event.AfterEntitySelectionChanged [1] [],
        Event.ForceSelectionAccentRefresh]).1,
    ((accent_refreshes_coalesced sampleScene rfl rfl
      [Event.AfterEntityHighlightingChanged, Event.AfterEntitySelectionChanged [1] [],
        Event.ForceSelectionAccentRefresh]).2
      [Event.AfterEntitySelectionChanged [] [1], Event.AfterEntityHighlightingChanged]
      (by simp) (by simp [Event.isNotification])).1⟩

/-- C2: after `RecalculateAndApplyAccents` the accent of an entity is `Hover` if it is in the
highlighted list; otherwise `Selected` if it is in the selected list (also when it is a
descendant of another selected entity, whatever the order of the list); otherwise
`ParentSelected` if it is a descendant of some selected entity; otherwise the accent it had
before the call. -/
theorem accent_assignment (c : EditorSelectionAccentSystemComponent) (e : EntityId) :
    (RecalculateAndApplyAccents c).accent e =
      if e ∈ c.highlightedEntities then ComponentEntityAccentType.Hover
      else if e ∈ c.selectedEntities then ComponentEntityAccentType.Selected
      else if ∃ s ∈ c.selectedEntities, e ∈ c.descendants s then
        ComponentEntityAccentType.ParentSelected
      else c.accent e :=
  RecalculateAndApplyAccents_accent c e

/-- C3, as stated, fails: in `hoveredParentScene` entity 2 is a descendant of the hovered
entity 1, and after `ForceSelectionAccentRefresh` its accent is `None`. -/
theorem hovered_descendant_not_accented :
    (1 ∈ hoveredParentScene.selectedEntities ∨ 1 ∈ hoveredParentScene.highlightedEntities) ∧
    2 ∈ hoveredParentScene.descendants 1 ∧
    (ForceSelectionAccentRefresh hoveredParentScene).accent 2 = ComponentEntityAccentType.None := by
  refine ⟨Or.inr ?_, ?_, ?_⟩
  · decide
  · decide
  · rfl

/-- C3, amended: after `ForceSelectionAccentRefresh` every entity that is selected or hovered,
and every descendant of a selected entity, has an accent other than `None`. -/
theorem selected_hovered_accented (c : EditorSelectionAccentSystemComponent) (e : EntityId)
    (h : e ∈ c.selectedEntities ∨ e ∈ c.highlightedEntities ∨
      ∃ s ∈ c.selectedEntities, e ∈ c.descendants s) :
    (ForceSelectionAccentRefresh c).accent e ≠ ComponentEntityAccentType.None := by
  rw [ForceSelectionAccentRefresh_accent]
  by_cases h1 : e ∈ c.highlightedEntities
  · simp [h1]
  · by_cases h2 : e ∈ c.selectedEntities
    · simp [h1, h2]
    · have h3 : ∃ s ∈ c.selectedEntities, e ∈ c.descendants s := by
        rcases h with h | h | h
        · exact absurd h h2
        · exact absurd h h1
        · exact h
      rw [if_neg h1, if_neg h2, if_pos h3]
      decide

/-- Witness for the amended C3: in `sampleScene` entity 4 is a descendant of the selected
entity 1. -/
theorem selected_hovered_accented_witness :
    (4 ∈ sampleScene.selectedEntities ∨ 4 ∈ sampleScene.highlightedEntities ∨
      ∃ s ∈ sampleScene.selectedEntities, 4 ∈ sampleScene.descendants s) ∧
    (ForceSelectionAccentRefresh sampleScene).accent 4 ≠ ComponentEntityAccentType.None :=
  ⟨Or.inr (Or.inr ⟨1, by decide, by decide⟩),
    selected_hovered_accented sampleScene 4 (Or.inr (Or.inr ⟨1, by decide, by decide⟩))⟩

/-- C4: after `ForceSelectionAccentRefresh` every entity that was in
`m_currentlyAccentedEntities` before the call and is neither selected, nor a descendant of a
selected entity, nor highlighted has accent `None`. -/
theorem stale_accents_cleared (c : EditorSelectionAccentSystemComponent) (e : EntityId)
    (hacc : e ∈ c.m_currentlyAccentedEntities)
    (hsel : e ∉ c.selectedEntities)
    (hdesc : ¬ ∃ s ∈ c.selectedEntities, e ∈ c.descendants s)
    (hhi : e ∉ c.highlightedEntities) :
    (ForceSelectionAccentRefresh c).accent e = ComponentEntityAccentType.None := by
  rw [ForceSelectionAccentRefresh_accent, if_neg hhi, if_neg hsel, if_neg hdesc, if_pos hacc]

/-- Witness for C4: in `sampleScene` entity 5 is accented (`Selected`) from an earlier refresh
and is no longer selected, a descendant of a selected entity, or hovered. -/
theorem stale_accents_cleared_witness :
    5 ∈ sampleScene.m_currentlyAccentedEntities ∧
    sampleScene.accent 5 = ComponentEntityAccentType.Selected ∧
    (ForceSelectionAccentRefresh sampleScene).accent 5 = ComponentEntityAccentType.None :=
  ⟨by decide, rfl,
    stale_accents_cleared sampleScene 5 (by decide) (by decide) (by decide) (by decide)⟩

/-- C10: the assertion of `QueueAccentRefresh` never fails. In every state reached from a
component with no refresh queued and an empty tick queue, no assertion failure has been
recorded; a selection or hover notification leaves `m_isAccentRefreshQueued` true, and it stays
true over all later events up to the next tick, which runs the queued callback and resets it. -/
theorem queue_assert_never_fails (c : EditorSelectionAccentSystemComponent)
    (hflag : c.m_isAccentRefreshQueued = false) (hqueue : c.tickQueue = [])
    (events : List Event) :
    (run c events).failedAsserts = c.failedAsserts ∧
    (∀ ev : Event, ev.isNotification = true →
      (step (run c events) ev).failedAsserts = c.failedAsserts ∧
      (step (run c events) ev).m_isAccentRefreshQueued = true ∧
      ∀ later : List Event, (∀ e ∈ later, e ≠ Event.tick) →
        (run (step (run c events) ev) later).m_isAccentRefreshQueued = true ∧
        (tick (run (step (run c events) ev) later)).m_isAccentRefreshQueued = false) := by
  have hfa := run_failedAsserts c events
  refine ⟨hfa, ?_⟩
  intro ev hev
  have hq := step_notification_flag (run c events) ev hev
  refine ⟨(step_failedAsserts _ ev).trans hfa, hq, ?_⟩
  intro later hlater
  have hq2 := run_flag_stays _ later hq hlater
  refine ⟨hq2, ?_⟩
  have hinv := run_queue_invariant c events (initial_queue_invariant c hflag hqueue)
  have hinv1 := step_queue_invariant _ ev hinv
  have hinv2 := run_queue_invariant _ later hinv1
  rw [hq2] at hinv2
  simp only [if_true] at hinv2
  show (List.foldl runQueued _ _).m_isAccentRefreshQueued = false
  rw [hinv2]
  rfl

/-- Witness for C10 on `sampleScene`: after a hover notification, a further selection
notification keeps the flag set and records no assertion failure. -/
theorem queue_assert_never_fails_witness :
    sampleScene.m_isAccentRefreshQueued = false ∧ sampleScene.tickQueue = [] ∧
    (run sampleScene [Event.AfterEntityHighlightingChanged]).failedAsserts =
      sampleScene.failedAsserts ∧
    (step (run sampleScene [Event.AfterEntityHighlightingChanged])
      (Event.AfterEntitySelectionChanged [2] [1])).m_isAccentRefreshQueued = true :=
  ⟨rfl, rfl,
    (queue_assert_never_fails sampleScene rfl rfl [Event.AfterEntityHighlightingChanged]).1,
    ((queue_assert_never_fails sampleScene rfl rfl [Event.AfterEntityHighlightingChanged]).2
      (Event.AfterEntitySelectionChanged [2] [1]) rfl).2.1⟩

end AzToolsFramework.EditorSelectionAccentSystemComponent

/-! ## The cached-pointer checks of `UiElementComponent` -/

namespace UiElementComponent

theorem AreChildPointersValid_value (c : UiElementComponent) :
    (AreChildPointersValid c).value = true ↔
      c.m_childElementComponents.length = c.m_children.length := by
  unfold AreChildPointersValid
  by_cases h : c.m_childElementComponents.length = c.m_children.length <;> simp [h]

/-- C7: `IsFullyInitialized` returns true if and only if the cached canvas pointer is non-null,
the cached transform-component pointer is non-null, and the cached child-component vector has
the same size as `m_children`; a newly constructed component is not fully initialized although
`AreChildPointersValid` is true for it. -/
theorem IsFullyInitialized_iff (c : UiElementComponent) :
    ((IsFullyInitialized c).value = true ↔
      (c.m_canvas ≠ nullptr ∧ c.m_transformComponent ≠ nullptr ∧
        c.m_childElementComponents.length = c.m_children.length)) ∧
    (IsFullyInitialized constructed).value = false ∧
    (AreChildPointersValid constructed).value = true := by
  refine ⟨?_, by decide, by decide⟩
  unfold IsFullyInitialized
  by_cases h1 : c.m_canvas = nullptr
  · simp [h1]
  · by_cases h2 : c.m_transformComponent = nullptr
    · simp [h1, h2]
    · simp [h1, h2, AreChildPointersValid_value]

/-- C8: `AreChildPointersValid` returns true if and only if the cached child vector and
`m_children` have the same size, and its assertion does not fail exactly when the cached child
vector is empty or has the same size as `m_children`. -/
theorem AreChildPointersValid_iff (c : UiElementComponent) :
    ((AreChildPointersValid c).value = true ↔
      c.m_childElementComponents.length = c.m_children.length) ∧
    ((AreChildPointersValid c).failedAsserts = [] ↔
      (c.m_childElementComponents = [] ∨
        c.m_childElementComponents.length = c.m_children.length)) := by
  refine ⟨AreChildPointersValid_value c, ?_⟩
  unfold AreChildPointersValid AZ_Assert
  by_cases h : c.m_childElementComponents.length = c.m_children.length
  · simp [h]
  · cases hl : c.m_childElementComponents with
    | nil =>
      rw [hl] at h
      rw [if_neg h]
      simp
    | cons x xs =>
      rw [hl] at h
      rw [if_neg h]
      simp only [List.length_cons] at h
      simp [h]

theorem toSizeT_of_nonneg (index : Int) (h0 : 0 ≤ index) (hmax : index < 2 ^ 31) :
    toSizeT index = index.toNat := by
  unfold toSizeT
  rw [Int.emod_eq_of_lt h0 (by omega)]

/-- C9: for an `int` index, `GetChildElementComponent(index)` returns the cached pointer stored
at position `index` when `0 <= index < size` and that entry is non-null, and then neither
assertion fails; for a negative index or an index `>= size` the bounds assertion fails. -/
theorem GetChildElementComponent_spec (c : UiElementComponent) (index : Int)
    (hmin : -(2 ^ 31) ≤ index) (hmax : index < 2 ^ 31) :
    (∀ p : Pointer, 0 ≤ index → index < c.m_childElementComponents.length →
      c.m_childElementComponents[index.toNat]? = some p → p ≠ nullptr →
      GetChildElementComponent c index = { value := some p, failedAsserts := [] }) ∧
    ((index < 0 ∨ (c.m_childElementComponents.length : Int) ≤ index) →
      outOfBoundsMessage ∈ (GetChildElementComponent c index).failedAsserts) := by
  constructor
  · intro p h0 hlt hp hnn
    have hs := toSizeT_of_nonneg index h0 hmax
    have hlt2 : index.toNat < c.m_childElementComponents.length := by omega
    unfold GetChildElementComponent
    simp only [hs, hp]
    simp [AZ_Assert, h0, hlt2, hnn]
  · intro hoob
    have ha : AZ_Assert (decide (index ≥ 0) &&
        decide (toSizeT index < c.m_childElementComponents.length)) outOfBoundsMessage =
        [outOfBoundsMessage] := by
      unfold AZ_Assert
      rcases hoob with hneg | hge
      · have : ¬ (index ≥ 0) := by omega
        simp [this]
      · by_cases h0 : 0 ≤ index
        · have hs := toSizeT_of_nonneg index h0 hmax
          have : ¬ (index.toNat < c.m_childElementComponents.length) := by omega
          simp [hs, this]
        · have : ¬ (index ≥ 0) := h0
          simp [this]
    unfold GetChildElementComponent
    simp only [ha]
    split <;> simp

/-- Witness for C9 on `sampleElement`: index 2 is in bounds with a non-null entry, index 3 is
out of bounds. -/
theorem GetChildElementComponent_spec_witness :
    GetChildElementComponent sampleElement 2 = { value := some 9, failedAsserts := [] } ∧
    outOfBoundsMessage ∈ (GetChildElementComponent sampleElement 3).failedAsserts :=
  ⟨(GetChildElementComponent_spec sampleElement 2 (by decide) (by decide)).1 9
      (by decide) (by decide) (by decide) (by decide),
    (GetChildElementComponent_spec sampleElement 3 (by decide) (by decide)).2
      (Or.inr (by decide))⟩

end UiElementComponent

/-! ## The reflection test fixtures -/

namespace LoadReflectedObjectTest

theorem SetUp_static {App Module Context Asset Object : Type}
    (api : ApplicationT App Module Context Asset Object) (buffer : Option (List Nat))
    (s : ModuleReflectionTest App) (app : App) (hs : s.s_application = some app)
    (t : LoadReflectedObjectTest Object) :
    ∃ s1 t1, SetUp api buffer s t = some (s1, t1) ∧
      s1.s_application = s.s_application ∧ s1.s_systemEntity = s.s_systemEntity ∧
      s1.systemAllocatorCreated = s.systemAllocatorCreated ∧
      s1.calls.count FixtureCall.Create = s.calls.count FixtureCall.Create ∧
      s1.calls.count FixtureCall.Destroy = s.calls.count FixtureCall.Destroy := by
  cases buffer with
  | none => exact ⟨s, t, rfl, rfl, rfl, rfl, rfl, rfl⟩
  | some b =>
    refine ⟨{ s with calls := s.calls ++ [FixtureCall.LoadObjectFromBuffer b (strlen b + 1)] },
      ⟨api.LoadObjectFromBuffer b (strlen b + 1) (api.GetSerializeContext app) (filter Asset)⟩,
      by simp [SetUp, hs], rfl, rfl, rfl, ?_, ?_⟩
    · simp [List.count_append]
    · simp [List.count_append]

theorem runTests_static {App Module Context Asset Object : Type}
    (api : ApplicationT App Module Context Asset Object) (tests : List (Option (List Nat)))
    (s : ModuleReflectionTest App) (app : App) (hs : s.s_application = some app) :
    ∃ s1, runTests api tests s = some s1 ∧
      s1.s_application = s.s_application ∧ s1.s_systemEntity = s.s_systemEntity ∧
      s1.systemAllocatorCreated = s.systemAllocatorCreated ∧
      s1.calls.count FixtureCall.Create = s.calls.count FixtureCall.Create ∧
      s1.calls.count FixtureCall.Destroy = s.calls.count FixtureCall.Destroy := by
  induction tests generalizing s with
  | nil => exact ⟨s, rfl, rfl, rfl, rfl, rfl, rfl⟩
  | cons b bs ih =>
    obtain ⟨s1, t1, h0, h1, h2, h3, h4, h5⟩ :=
      SetUp_static api b s app hs (constructed Object)
    obtain ⟨s2, k0, k1, k2, k3, k4, k5⟩ := ih s1 (h1.trans hs)
    refine ⟨s2, ?_, k1.trans h1, k2.trans h2, k3.trans h3, k4.trans h4, k5.trans h5⟩
    simp only [runTests, runTest, h0, k0]

/-- C5: `SetUpTestCase` followed by `TearDownTestCase` restores the static state to its initial
value (`s_application` empty, `s_systemEntity` null, system allocator not created); a per-test
`SetUp` (and `TearDown`, which has no access to the static state) leaves `s_application` and
`s_systemEntity` unchanged; and over a whole run of the fixture, whatever its tests, the
application is created once and destroyed once. -/
theorem fixture_round_trip {App Module Context Asset Object : Type}
    (api : ApplicationT App Module Context Asset Object) (moduleT : Module)
    (tests : List (Option (List Nat))) :
    (∃ s1, ModuleReflectionTest.TearDownTestCase api
        (ModuleReflectionTest.SetUpTestCase api moduleT (ModuleReflectionTest.initial App)) =
          some s1 ∧
      s1.s_application = (ModuleReflectionTest.initial App).s_application ∧
      s1.s_systemEntity = (ModuleReflectionTest.initial App).s_systemEntity ∧
      s1.systemAllocatorCreated = (ModuleReflectionTest.initial App).systemAllocatorCreated ∧
      s1.s_application = none ∧ s1.s_systemEntity = nullptr ∧
      s1.systemAllocatorCreated = false) ∧
    (∀ (s : ModuleReflectionTest App) (app : App) (buffer : Option (List Nat))
        (t : LoadReflectedObjectTest Object), s.s_application = some app →
      ∃ s1 t1, SetUp api buffer s t = some (s1, t1) ∧
        s1.s_application = s.s_application ∧ s1.s_systemEntity = s.s_systemEntity) ∧
    (∃ sf, runSuite api moduleT tests (ModuleReflectionTest.initial App) = some sf ∧
      sf.s_application = none ∧ sf.s_systemEntity = nullptr ∧
      sf.systemAllocatorCreated = false ∧
      sf.calls.count FixtureCall.Create = 1 ∧ sf.calls.count FixtureCall.Destroy = 1) := by
  refine ⟨⟨_, rfl, rfl, rfl, rfl, rfl, rfl, rfl⟩, ?_, ?_⟩
  · intro s app buffer t hs
    obtain ⟨s1, t1, h0, h1, h2, _⟩ := SetUp_static api buffer s app hs t
    exact ⟨s1, t1, h0, h1, h2⟩
  · obtain ⟨s1, h0, h1, h2, h3, h4, h5⟩ := runTests_static api tests
      (ModuleReflectionTest.SetUpTestCase api moduleT (ModuleReflectionTest.initial App)) _ rfl
    have hc : s1.calls.count FixtureCall.Create = 1 := by
      rw [h4]
      simp [ModuleReflectionTest.SetUpTestCase, ModuleReflectionTest.initial]
    have hd : s1.calls.count FixtureCall.Destroy = 0 := by
      rw [h5]
      simp [ModuleReflectionTest.SetUpTestCase, ModuleReflectionTest.initial]
    have happ : s1.s_application = some _ := h1
    refine ⟨⟨false, none, nullptr, s1.calls ++ [FixtureCall.Destroy]⟩,
      by simp only [runSuite, h0, ModuleReflectionTest.TearDownTestCase, happ],
      rfl, rfl, rfl, ?_, ?_⟩
    · simp [List.count_append, hc]
    · simp [List.count_append, hd]

/-- Witness for C5 with `sampleApplication`: in the state after `SetUpTestCase`, a `SetUp` with
the buffer "hi" leaves the two static members unchanged. -/
theorem fixture_round_trip_witness :
    (ModuleReflectionTest.SetUpTestCase sampleApplication "module"
      (ModuleReflectionTest.initial Nat)).s_application = some 2 ∧
    ∃ s1 t1, SetUp sampleApplication (some [104, 105, 0])
        (ModuleReflectionTest.SetUpTestCase sampleApplication "module"
          (ModuleReflectionTest.initial Nat)) (constructed (List Nat)) = some (s1, t1) ∧
      s1.s_application = (ModuleReflectionTest.SetUpTestCase sampleApplication "module"
          (ModuleReflectionTest.initial Nat)).s_application ∧
      s1.s_systemEntity = (ModuleReflectionTest.SetUpTestCase sampleApplication "module"
          (ModuleReflectionTest.initial Nat)).s_systemEntity :=
  ⟨rfl, (fixture_round_trip sampleApplication "module" []).2.1
    (ModuleReflectionTest.SetUpTestCase sampleApplication "module"
      (ModuleReflectionTest.initial Nat)) 2 (some [104, 105, 0]) (constructed (List Nat)) rfl⟩

/-- C6: `SetUp` loads an object exactly when `GetSourceDataBuffer` returns a non-null buffer.
With a null buffer nothing changes: no load is attempted and `m_object` stays null. With a
non-null buffer exactly one load is made, from that buffer with length `strlen(buffer) + 1` and
an asset filter that rejects every asset, and `m_object` is its result. After `TearDown`
`m_object` is null in both cases. -/
theorem SetUp_loads_iff_buffer {App Module Context Asset Object : Type}
    (api : ApplicationT App Module Context Asset Object)
    (s : ModuleReflectionTest App) (app : App) (hs : s.s_application = some app) :
    (SetUp api none s (constructed Object) = some (s, constructed Object) ∧
      (constructed Object).m_object = none ∧
      (TearDown (constructed Object)).m_object = none) ∧
    (∀ buffer : List Nat, ∃ s1 t1,
      SetUp api (some buffer) s (constructed Object) = some (s1, t1) ∧
      t1.m_object = api.LoadObjectFromBuffer buffer (strlen buffer + 1)
        (api.GetSerializeContext app) (filter Asset) ∧
      (∀ asset : Asset, (filter Asset).m_assetCB asset = false) ∧
      s1.calls = s.calls ++ [FixtureCall.LoadObjectFromBuffer buffer (strlen buffer + 1)] ∧
      (TearDown t1).m_object = none) := by
  refine ⟨⟨rfl, rfl, rfl⟩, ?_⟩
  intro buffer
  exact ⟨{ s with calls := s.calls ++ [FixtureCall.LoadObjectFromBuffer buffer (strlen buffer + 1)] },
    ⟨api.LoadObjectFromBuffer buffer (strlen buffer + 1) (api.GetSerializeContext app)
      (filter Asset)⟩,
    by simp [SetUp, hs, constructed], rfl, fun _ => rfl, rfl, rfl⟩

/-- Witness for C6 with `sampleApplication` after `SetUpTestCase`: the buffer "hi" is loaded
with length 3. -/
theorem SetUp_loads_iff_buffer_witness :
    (ModuleReflectionTest.SetUpTestCase sampleApplication "module"
      (ModuleReflectionTest.initial Nat)).s_application = some 2 ∧
    ∃ s1 t1, SetUp sampleApplication (some [104, 105, 0, 33])
        (ModuleReflectionTest.SetUpTestCase sampleApplication "module"
          (ModuleReflectionTest.initial Nat)) (constructed (List Nat)) = some (s1, t1) ∧
      t1.m_object = some [104, 105, 0] ∧
      s1.calls = [FixtureCall.Create, FixtureCall.LoadObjectFromBuffer [104, 105, 0, 33] 3] ∧
      (TearDown t1).m_object = none := by
  refine ⟨rfl, ?_⟩
  obtain ⟨s1, t1, h0, h1, _, h3, h4⟩ :=
    (SetUp_loads_iff_buffer sampleApplication
      (ModuleReflectionTest.SetUpTestCase sampleApplication "module"
        (ModuleReflectionTest.initial Nat)) 2 rfl).2 [104, 105, 0, 33]
  exact ⟨s1, t1, h0, h1, h3, h4⟩

end LoadReflectedObjectTest

/-! ## Bus connections after `Deactivate` -/

namespace AzToolsFramework.ConnectedComponent

/-- C11 fails on the code: `Activate` connects the component to both buses, and after
`Deactivate` it is disconnected from the `EditorSelectionAccentingRequestBus` but still
connected to the `ToolsApplicationEvents` bus, whatever its state before. For the component
around `sampleScene`, a selection notification and a hover notification broadcast after
`Deactivate` still reach it and queue an accent refresh. -/
theorem Deactivate_keeps_notifications (h : ConnectedComponent) :
    ((Activate h).toolsApplicationEventsConnected = true ∧
      (Activate h).accentingRequestBusConnected = true) ∧
    ((Deactivate (Activate h)).toolsApplicationEventsConnected = true ∧
      (Deactivate (Activate h)).accentingRequestBusConnected = false) ∧
    (Deactivate (Activate h)).component = h.component ∧
    inactiveSample.component.tickQueue = [] ∧
    (broadcastAfterEntitySelectionChanged (Deactivate (Activate inactiveSample))
      [1] []).component.tickQueue = [QueuedFunction.accentRefreshCallback] ∧
    (broadcastAfterEntityHighlightingChanged
      (Deactivate (Activate inactiveSample))).component.tickQueue =
      [QueuedFunction.accentRefreshCallback] :=
  ⟨⟨rfl, rfl⟩, ⟨rfl, rfl⟩, rfl, rfl, rfl, rfl⟩

end AzToolsFramework.ConnectedComponent
